import Mathlib

/-!
Verification of the ScholarAI frontend's chat-session controller and
dashboard data loader, shallowly embedded from the TypeScript source.

The chat page (`ChatPageContent` with `sendMessage`, `startNewChat`, the
URL `session_id` adoption effect) is embedded from the chat page component;
the dashboard (`fetchDashboardData`, `deleteSession`) from the dashboard
page component; the axios wrapper (`API_BASE_URL` and its call sites) from
`lib/api.ts`.

Modelling conventions:
* React `useState` cells become fields of an explicit state record
  (`ChatState`, `DashboardState`); each handler is a pure function of the
  state plus the outcome of its network interaction.
* A `fetch` interaction is a `FetchOutcome β`: `throw` is a rejected
  promise (network-level error); `resp ok body` is a settled response with
  its `ok` flag (2xx) and `body` the result of `response.json()` —
  `none` means the body failed to parse (so `json()` throws).
* JavaScript truthiness on strings and string-options (`null`/`""` are
  falsy) is made explicit via `truthyStr`/`truthyOptStr`/`jsOrStr`.
* `Date.now()` readings are passed in as `Nat` parameters (`now` at call
  entry, `now2` when the response settles); optional JSON fields are
  `Option`s (`none` = the field is absent/`undefined`).
* Network calls a handler issues are returned explicitly (`ChatRequest`
  list, `requestIssued`/`refreshTriggered` flags), so "no network call"
  is a provable statement.
-/

/-- JavaScript truthiness of a string: falsy iff empty. -/
def truthyStr (s : String) : Bool := s != ""

/-- JavaScript truthiness of a nullable string (`null`/`undefined` and `""` are falsy). -/
def truthyOptStr : Option String → Bool
  | some s => truthyStr s
  | none => false

/-- JavaScript `a || b` for a possibly-undefined string `a`: falls through to `b`
when `a` is `undefined` or falsy (empty). Used for `messageText || inputMessage`
and `process.env.NEXT_PUBLIC_API_URL || '...'`. -/
def jsOrStr (a : Option String) (b : String) : String :=
  match a with
  | some s => if s = "" then b else s
  | none => b

/-- Drop leading whitespace characters from a character list. -/
def dropLeadingWS : List Char → List Char
  | [] => []
  | c :: cs => if c.isWhitespace then dropLeadingWS cs else c :: cs

/-- Model of JavaScript `String.prototype.trim`: strip whitespace from both
ends of the string (leading directly, trailing via reversal). -/
def jsTrim (s : String) : String :=
  ⟨(dropLeadingWS (dropLeadingWS s.data).reverse).reverse⟩

/-- Message role, from the `"user" | "assistant"` union in the `Message` interface. -/
inductive Role where
  | user
  | assistant
deriving DecidableEq, Repr

/-- A cited source, from the `Source` interface in `types/chat.ts`. -/
structure Source where
  id : String
  title : String
  url : String
  snippet : String
  type : String
deriving DecidableEq, Repr

/-- A chat message, from the `Message` interface of the chat page:
`id`, `role`, `content`, `timestamp`, optional `sources`.
`content` is an `Option` because the code stores `data.message`, which may be
`undefined` when the response body lacks that field; `sources = none` means the
field is absent (as in the fallback message built in the `catch` block). -/
structure Message where
  id : String
  role : Role
  content : Option String
  timestamp : Nat
  sources : Option (List Source)
deriving DecidableEq, Repr

/-- The chat page's `useState` cells: `messages`, `inputMessage`, `isLoading`
(the in-flight flag), `sessionId`. -/
structure ChatState where
  messages : List Message
  inputMessage : String
  isLoading : Bool
  sessionId : Option String
deriving DecidableEq, Repr

/-- The initial chat page state: `useState<Message[]>([])`, `useState("")`,
`useState(false)`, `useState<string | null>(null)`. -/
def initChatState : ChatState :=
  { messages := [], inputMessage := "", isLoading := false, sessionId := none }

/-- Parsed JSON body of a `POST /api/chat/send/` response: the fields
`sendMessage` reads (`data.message`, `data.sources`, `data.session_id`),
each possibly absent. -/
structure ChatResponseBody where
  message : Option String
  sources : Option (List Source)
  session_id : Option String
deriving DecidableEq, Repr

/-- Outcome of one `fetch` interaction with body type `β`:
`throw` = the fetch promise rejected (network-level error);
`resp ok body` = a response settled with HTTP-success flag `ok`, where
`body = none` means `response.json()` threw (malformed body) and
`body = some b` is the parsed JSON value. -/
inductive FetchOutcome (β : Type) where
  | throw
  | resp (ok : Bool) (body : Option β)
deriving DecidableEq, Repr

/-- A request issued by `sendMessage`: the fetch URL and the JSON body
`{ message, session_id }` it posts. -/
structure ChatRequest where
  url : String
  message : String
  session_id : Option String
deriving DecidableEq, Repr

/-- The hardcoded URL the chat page's `sendMessage` fetches. -/
def chatSendFetchURL : String := "http://127.0.0.1:8000/api/chat/send/"

/-- The fixed apology content of the fallback assistant message built in
`sendMessage`'s `catch` block. -/
def apologyMessage : String :=
  "I apologize, but I'm experiencing some technical difficulties. Please try again in a moment."

/-- The optimistic user message: `{ id: Date.now().toString(), role: "user",
content: textToSend, timestamp: new Date() }` (no `sources` field). -/
def mkUserMessage (now : Nat) (textToSend : String) : Message :=
  { id := toString now, role := .user, content := some textToSend,
    timestamp := now, sources := none }

/-- The assistant message built from a parsed response body:
`{ id: (Date.now() + 1).toString(), role: "assistant", content: data.message,
timestamp: new Date(), sources: data.sources || [] }`. An array is always
truthy in JavaScript, so `data.sources || []` substitutes `[]` exactly when
the field is absent. -/
def mkAssistantMessage (now2 : Nat) (data : ChatResponseBody) : Message :=
  { id := toString (now2 + 1), role := .assistant, content := data.message,
    timestamp := now2, sources := some (data.sources.getD []) }

/-- The fallback assistant message appended in the `catch` block:
`{ id: Date.now().toString(), role: "assistant", content: <apology>,
timestamp: new Date() }` — no `sources` field. -/
def fallbackMessage (now2 : Nat) : Message :=
  { id := toString now2, role := .assistant, content := some apologyMessage,
    timestamp := now2, sources := none }

/-- The state updates `sendMessage` performs before its `fetch` resolves:
append the optimistic user message, clear the input buffer, set the
in-flight flag. -/
def sendMessageOptimistic (textToSend : String) (now : Nat) (s : ChatState) : ChatState :=
  { s with messages := s.messages ++ [mkUserMessage now textToSend],
           inputMessage := "", isLoading := true }

/-- The state updates `sendMessage` performs once its network interaction
settles. On a response whose body parsed (`resp _ (some data)` — the `ok`
flag is never consulted): append the assistant message and, when
`data.session_id && !sessionId`, adopt `data.session_id`. On a rejected
fetch or a body that fails to parse: the `catch` block appends the fallback
message. The `finally` block clears the in-flight flag in every case. -/
def sendMessageResolve (now2 : Nat) (outcome : FetchOutcome ChatResponseBody)
    (s : ChatState) : ChatState :=
  match outcome with
  | .resp _ (some data) =>
    let s1 := { s with messages := s.messages ++ [mkAssistantMessage now2 data] }
    let s2 := if truthyOptStr data.session_id = true ∧ truthyOptStr s1.sessionId = false
              then { s1 with sessionId := data.session_id } else s1
    { s2 with isLoading := false }
  | _ =>
    { s with messages := s.messages ++ [fallbackMessage now2], isLoading := false }

/-- The chat page's `sendMessage(messageText?)`, as a function of the state,
the two `Date.now()` readings and the fetch outcome; returns the final state
and the list of requests issued. `textToSend = messageText || inputMessage`;
the guard `if (!textToSend.trim() || isLoading) return` makes the call a
no-op (no request) when the effective text trims to empty or a request is
already in flight. -/
def sendMessage (messageText : Option String) (now now2 : Nat)
    (outcome : FetchOutcome ChatResponseBody) (s : ChatState) :
    ChatState × List ChatRequest :=
  if jsTrim (jsOrStr messageText s.inputMessage) = "" ∨ s.isLoading = true then (s, [])
  else (sendMessageResolve now2 outcome
          (sendMessageOptimistic (jsOrStr messageText s.inputMessage) now s),
        [{ url := chatSendFetchURL, message := jsOrStr messageText s.inputMessage,
           session_id := s.sessionId }])

/-- The chat page's `startNewChat`: `setMessages([])`, `setSessionId(null)`.
The second component is the (empty) list of requests it issues. -/
def startNewChat (s : ChatState) : ChatState × List ChatRequest :=
  ({ s with messages := [], sessionId := none }, [])

/-- The URL-parameter effect of the chat page:
`const sessionIdFromUrl = searchParams.get('session_id');
if (sessionIdFromUrl && !sessionId) setSessionId(sessionIdFromUrl)`. -/
def adoptUrlSessionId (urlParam : Option String) (s : ChatState) : ChatState :=
  if truthyOptStr urlParam = true ∧ truthyOptStr s.sessionId = false
  then { s with sessionId := urlParam } else s

/-- One `sendMessage` call in a run: its argument, the two clock readings
and the outcome of its network interaction. -/
structure SendCall where
  messageText : Option String
  now : Nat
  now2 : Nat
  outcome : FetchOutcome ChatResponseBody
deriving DecidableEq, Repr

/-- Run a sequence of `sendMessage` calls, threading the chat state. -/
def runSends : List SendCall → ChatState → ChatState
  | [], s => s
  | c :: cs, s => runSends cs (sendMessage c.messageText c.now c.now2 c.outcome s).1

/-- Aggregate statistics, from the `DashboardStats` interface of the
dashboard page. -/
structure DashboardStats where
  research_sessions : Nat
  messages_exchanged : Nat
  sources_cited : Nat
  research_hours : Nat
deriving DecidableEq, Repr

/-- A listed research session, from the `ResearchSession` interface of the
dashboard page. -/
structure ResearchSession where
  id : Int
  title : String
  messages : Nat
  lastActive : String
  topics : List String
  status : String
deriving DecidableEq, Repr

/-- An AI insight card, from the `AIInsight` interface of the dashboard page. -/
structure AIInsight where
  title : String
  description : String
  action : String
deriving DecidableEq, Repr

/-- Parsed JSON body of `GET /api/chat/dashboard/sessions/`: the code reads
`sessionsData.sessions || []`, so the field may be absent. -/
structure SessionsBody where
  sessions : Option (List ResearchSession)
deriving DecidableEq, Repr

/-- Parsed JSON body of `GET /api/chat/dashboard/insights/`: the code reads
`insightsData.insights || []`, so the field may be absent. -/
structure InsightsBody where
  insights : Option (List AIInsight)
deriving DecidableEq, Repr

/-- The dashboard page's `useState` cells: `stats`, `recentSessions`,
`insights`, `loading`, `error`. -/
structure DashboardState where
  stats : DashboardStats
  recentSessions : List ResearchSession
  insights : List AIInsight
  loading : Bool
  error : Option String
deriving DecidableEq, Repr

/-- The dashboard page's initial state: zeroed stats, empty lists,
`loading = true`, `error = null`. -/
def initDashboardState : DashboardState :=
  { stats := { research_sessions := 0, messages_exchanged := 0,
               sources_cited := 0, research_hours := 0 },
    recentSessions := [], insights := [], loading := true, error := none }

/-- The message `fetchDashboardData`'s `catch` block stores in `error`. -/
def dashboardErrorMessage : String := "Failed to load dashboard data. Please try again."

/-- The message `deleteSession` stores in `error` on failure. -/
def deleteErrorMessage : String := "Failed to delete session. Please try again."

/-- The `catch`/`finally` tail of `fetchDashboardData`: set the error flag,
clear `loading`. -/
def dashboardCatch (s : DashboardState) : DashboardState :=
  { s with error := some dashboardErrorMessage, loading := false }

/-- One `if (r.ok) { data = await r.json(); set...(data) }` block of
`fetchDashboardData`: when the response is not 2xx the slice is skipped;
when it is 2xx and the body fails to parse, `json()` throws (`none`);
otherwise the slice update `upd` is applied. -/
def sliceStep {β : Type} (ok : Bool) (body : Option β)
    (upd : β → DashboardState → DashboardState) (s : DashboardState) :
    Option DashboardState :=
  if ok then body.map (fun b => upd b s) else some s

/-- The dashboard page's `fetchDashboardData`, as a function of the state and
the outcomes of the three parallel fetches (stats, sessions, insights).
`setLoading(true)` and `setError(null)` run before the `await Promise.all`;
if any of the three fetches rejects, `Promise.all` rejects and no slice is
touched; otherwise the three `ok`-guarded blocks run in order, and a body
that fails to parse throws out of the remaining blocks into the `catch`.
The `finally` block clears `loading` in every case. -/
def fetchDashboardData (rStats : FetchOutcome DashboardStats)
    (rSessions : FetchOutcome SessionsBody) (rInsights : FetchOutcome InsightsBody)
    (s : DashboardState) : DashboardState :=
  let s0 := { s with loading := true, error := none }
  match rStats, rSessions, rInsights with
  | .resp okS bS, .resp okSe bSe, .resp okI bI =>
    match sliceStep okS bS (fun d t => { t with stats := d }) s0 with
    | none => dashboardCatch s0
    | some s1 =>
      match sliceStep okSe bSe (fun b t => { t with recentSessions := b.sessions.getD [] }) s1 with
      | none => dashboardCatch s1
      | some s2 =>
        match sliceStep okI bI (fun b t => { t with insights := b.insights.getD [] }) s2 with
        | none => dashboardCatch s2
        | some s3 => { s3 with loading := false }
  | _, _, _ => dashboardCatch s0

/-- Outcome of the `DELETE .../sessions/{id}/delete/` fetch: `throw` is a
rejected promise, `resp ok` a settled response with its `ok` flag (the body
is never read). -/
inductive DeleteOutcome where
  | throw
  | resp (ok : Bool)
deriving DecidableEq, Repr

/-- Result of a `deleteSession` call: the dashboard state as it stands before
any `fetchDashboardData` refresh effects are applied, whether the delete
request was issued, and whether the refresh was triggered. -/
structure DeleteEffect where
  state : DashboardState
  requestIssued : Bool
  refreshTriggered : Bool
deriving DecidableEq, Repr

/-- The dashboard page's `deleteSession(sessionId)`: it returns immediately
when the confirmation dialog is declined; otherwise it issues the delete
request, and on `response.ok` filters the session out of `recentSessions`
(`prev.filter(session => session.id !== sessionId)`) and triggers a
`fetchDashboardData()` refresh, while on a non-2xx response or a rejected
fetch it sets the error flag and leaves the list untouched. -/
def deleteSession (confirmed : Bool) (sessionId : Int) (outcome : DeleteOutcome)
    (s : DashboardState) : DeleteEffect :=
  if confirmed = false then { state := s, requestIssued := false, refreshTriggered := false }
  else
    match outcome with
    | .resp true =>
      { state := { s with recentSessions :=
                    s.recentSessions.filter (fun session => session.id != sessionId) },
        requestIssued := true, refreshTriggered := true }
    | .resp false =>
      { state := { s with error := some deleteErrorMessage },
        requestIssued := true, refreshTriggered := false }
    | .throw =>
      { state := { s with error := some deleteErrorMessage },
        requestIssued := true, refreshTriggered := false }

/-- `API_BASE_URL` from `lib/api.ts`:
`process.env.NEXT_PUBLIC_API_URL || 'http://localhost:8000/api'`. -/
def API_BASE_URL (env : Option String) : String :=
  jsOrStr env "http://localhost:8000/api"

/-- The base the chat page and dashboard page hardcode in their `fetch`
calls. -/
def hardcodedBase : String := "http://127.0.0.1:8000/api"

/-- A URL is relative to a base when the base is a prefix of it. -/
def usesBase (base url : String) : Bool :=
  base.data.isPrefixOf url.data

/-- The paths the axios wrapper in `lib/api.ts` requests relative to
`API_BASE_URL` (chat, research and health endpoints), for a given session id
and research query. -/
def apiWrapperPaths (sid : String) (q : String) : List String :=
  [ "/chat/send/", "/chat/sessions/", "/chat/sessions/" ++ sid ++ "/",
    "/research/search/", "/research/sources/?q=" ++ q, "/health/" ]

/-- The paths the chat page and dashboard page fetch with the hardcoded
`http://127.0.0.1:8000/api` base, for a given dashboard session id. -/
def hardcodedPaths (dashId : Int) : List String :=
  [ "/chat/send/", "/chat/dashboard/stats/", "/chat/dashboard/sessions/",
    "/chat/dashboard/insights/",
    "/chat/dashboard/sessions/" ++ toString dashId ++ "/delete/" ]

/-- Every URL some frontend call site requests, written as each call site
writes it: the axios wrapper's endpoints are `API_BASE_URL` joined with a
path, while the chat page's `sendMessage` fetch and the dashboard page's
four fetches spell out `http://127.0.0.1:8000/api/...` literally. -/
def frontendRequestURLs (env : Option String) (sid : String) (q : String)
    (dashId : Int) : List String :=
  [ API_BASE_URL env ++ "/chat/send/",
    API_BASE_URL env ++ "/chat/sessions/",
    API_BASE_URL env ++ ("/chat/sessions/" ++ sid ++ "/"),
    API_BASE_URL env ++ "/research/search/",
    API_BASE_URL env ++ ("/research/sources/?q=" ++ q),
    API_BASE_URL env ++ "/health/",
    "http://127.0.0.1:8000/api/chat/send/",
    "http://127.0.0.1:8000/api/chat/dashboard/stats/",
    "http://127.0.0.1:8000/api/chat/dashboard/sessions/",
    "http://127.0.0.1:8000/api/chat/dashboard/insights/",
    "http://127.0.0.1:8000/api/chat/dashboard/sessions/" ++ toString dashId ++ "/delete/" ]

/-! ## Helper lemmas -/

lemma jsOrStr_some_of_ne (t b : String) (h : t ≠ "") : jsOrStr (some t) b = t := by
  simp [jsOrStr, h]

lemma jsTrim_empty : jsTrim "" = "" := rfl

lemma ne_empty_of_jsTrim_ne (t : String) (h : jsTrim t ≠ "") : t ≠ "" := by
  intro he
  subst he
  exact h jsTrim_empty

lemma sendMessage_guard_passes (t : String) (now now2 : Nat)
    (outcome : FetchOutcome ChatResponseBody) (s : ChatState)
    (ht : jsTrim t ≠ "") (hl : s.isLoading = false) :
    sendMessage (some t) now now2 outcome s =
      (sendMessageResolve now2 outcome (sendMessageOptimistic t now s),
       [{ url := chatSendFetchURL, message := t, session_id := s.sessionId }]) := by
  have htne : t ≠ "" := ne_empty_of_jsTrim_ne t ht
  unfold sendMessage
  rw [jsOrStr_some_of_ne t s.inputMessage htne, if_neg]
  rintro (h | h)
  · exact ht h
  · rw [hl] at h
    exact Bool.false_ne_true h

/-! ## Claim theorems -/

/-- C4: for every input string that is non-empty after trimming, when no
request is in flight, `sendMessage` issues exactly one request and applies
the resolution to the optimistic state, which already holds exactly one
appended user message with that text and the cleared input buffer — so the
optimistic update is synchronous with the call, before the network outcome
is applied. -/
theorem sendMessage_optimistic_user_append (t : String) (now now2 : Nat)
    (outcome : FetchOutcome ChatResponseBody) (s : ChatState)
    (ht : jsTrim t ≠ "") (hl : s.isLoading = false) :
    sendMessage (some t) now now2 outcome s =
      (sendMessageResolve now2 outcome (sendMessageOptimistic t now s),
       [{ url := chatSendFetchURL, message := t, session_id := s.sessionId }]) ∧
    (sendMessageOptimistic t now s).messages = s.messages ++ [mkUserMessage now t] ∧
    (mkUserMessage now t).role = Role.user ∧
    (mkUserMessage now t).content = some t ∧
    (sendMessageOptimistic t now s).inputMessage = "" :=
  ⟨sendMessage_guard_passes t now now2 outcome s ht hl, rfl, rfl, rfl, rfl⟩

theorem sendMessage_optimistic_user_append_witness :
    jsTrim "hello" ≠ "" ∧ initChatState.isLoading = false ∧
    (sendMessage (some "hello") 0 1 FetchOutcome.throw initChatState =
      (sendMessageResolve 1 FetchOutcome.throw (sendMessageOptimistic "hello" 0 initChatState),
       [{ url := chatSendFetchURL, message := "hello",
          session_id := initChatState.sessionId }]) ∧
     (sendMessageOptimistic "hello" 0 initChatState).messages =
       initChatState.messages ++ [mkUserMessage 0 "hello"] ∧
     (mkUserMessage 0 "hello").role = Role.user ∧
     (mkUserMessage 0 "hello").content = some "hello" ∧
     (sendMessageOptimistic "hello" 0 initChatState).inputMessage = "") :=
  ⟨by decide, rfl,
   sendMessage_optimistic_user_append "hello" 0 1 FetchOutcome.throw initChatState
     (by decide) rfl⟩

/-- C5: `sendMessage` is a no-op — final state identical to the initial one
and no request issued — whenever the effective text trims to empty or a
request is already in flight. -/
theorem sendMessage_noop (messageText : Option String) (now now2 : Nat)
    (outcome : FetchOutcome ChatResponseBody) (s : ChatState)
    (h : jsTrim (jsOrStr messageText s.inputMessage) = "" ∨ s.isLoading = true) :
    sendMessage messageText now now2 outcome s = (s, []) := by
  unfold sendMessage
  rw [if_pos h]

theorem sendMessage_noop_witness :
    (jsTrim (jsOrStr (some "   ") initChatState.inputMessage) = "" ∨
      initChatState.isLoading = true) ∧
    sendMessage (some "   ") 0 1 FetchOutcome.throw initChatState = (initChatState, []) :=
  ⟨Or.inl (by decide),
   sendMessage_noop (some "   ") 0 1 FetchOutcome.throw initChatState (Or.inl (by decide))⟩

/-- C8: `startNewChat` empties the message sequence, unsets the session id,
leaves the input buffer and in-flight flag as they were, issues no network
request, and is idempotent. -/
theorem startNewChat_spec (s : ChatState) :
    (startNewChat s).1.messages = [] ∧
    (startNewChat s).1.sessionId = none ∧
    (startNewChat s).1.inputMessage = s.inputMessage ∧
    (startNewChat s).1.isLoading = s.isLoading ∧
    (startNewChat s).2 = [] ∧
    startNewChat (startNewChat s).1 = startNewChat s :=
  ⟨rfl, rfl, rfl, rfl, rfl, rfl⟩

/-- C9: when the confirmation dialog is declined, `deleteSession` returns
immediately: no delete request is issued, no refresh is triggered, and the
dashboard state (session list, stats, insights, error flag) is exactly as
before. -/
theorem deleteSession_declined (sessionId : Int) (outcome : DeleteOutcome)
    (s : DashboardState) :
    deleteSession false sessionId outcome s =
      { state := s, requestIssued := false, refreshTriggered := false } := rfl

/-- C1 (amended): when the chat-send fetch rejects (network error) or its
body fails to parse as JSON, the `catch` block appends exactly one fallback
assistant message carrying the fixed apology text and no sources, the
session id is unchanged, the in-flight flag is released, and — the handler
being a total function into states — no exception reaches the caller. -/
theorem sendMessage_failure_fallback (t : String) (now now2 : Nat) (ok : Bool)
    (outcome : FetchOutcome ChatResponseBody) (s : ChatState)
    (ht : jsTrim t ≠ "") (hl : s.isLoading = false)
    (hfail : outcome = FetchOutcome.throw ∨ outcome = FetchOutcome.resp ok none) :
    (sendMessage (some t) now now2 outcome s).1.messages =
      s.messages ++ [mkUserMessage now t, fallbackMessage now2] ∧
    (fallbackMessage now2).role = Role.assistant ∧
    (fallbackMessage now2).content = some apologyMessage ∧
    (fallbackMessage now2).sources = none ∧
    (sendMessage (some t) now now2 outcome s).1.sessionId = s.sessionId ∧
    (sendMessage (some t) now now2 outcome s).1.isLoading = false := by
  rw [sendMessage_guard_passes t now now2 outcome s ht hl]
  refine ⟨?_, rfl, rfl, rfl, ?_, ?_⟩ <;>
    (rcases hfail with h | h <;> subst h <;>
      simp [sendMessageResolve, sendMessageOptimistic])

theorem sendMessage_failure_fallback_witness :
    jsTrim "hello" ≠ "" ∧ initChatState.isLoading = false ∧
    ((FetchOutcome.throw : FetchOutcome ChatResponseBody) = FetchOutcome.throw ∨
      (FetchOutcome.throw : FetchOutcome ChatResponseBody) = FetchOutcome.resp true none) ∧
    ((sendMessage (some "hello") 0 1 FetchOutcome.throw initChatState).1.messages =
      initChatState.messages ++ [mkUserMessage 0 "hello", fallbackMessage 1] ∧
     (fallbackMessage 1).role = Role.assistant ∧
     (fallbackMessage 1).content = some apologyMessage ∧
     (fallbackMessage 1).sources = none ∧
     (sendMessage (some "hello") 0 1 FetchOutcome.throw initChatState).1.sessionId =
       initChatState.sessionId ∧
     (sendMessage (some "hello") 0 1 FetchOutcome.throw initChatState).1.isLoading = false) :=
  ⟨by decide, rfl, Or.inl rfl,
   sendMessage_failure_fallback "hello" 0 1 true FetchOutcome.throw initChatState
     (by decide) rfl (Or.inl rfl)⟩

/-- C1 (counterexample): a non-2xx response whose body parses as JSON does
*not* produce the apology message — `sendMessage` never consults
`response.ok`, so the assistant message is built from the body
(`data.message`, here `"Server error"`) exactly as on success. -/
theorem sendMessage_non2xx_no_apology :
    ((sendMessage (some "hello") 0 1
        (FetchOutcome.resp false
          (some { message := some "Server error", sources := none, session_id := none }))
        initChatState).1.messages.map Message.content =
      [some "hello", some "Server error"]) ∧
    ¬ ((sendMessage (some "hello") 0 1
        (FetchOutcome.resp false
          (some { message := some "Server error", sources := none, session_id := none }))
        initChatState).1.messages.map Message.content =
      [some "hello", some apologyMessage]) :=
  ⟨by decide, by decide⟩

/-! ## Session-id first-writer-wins machinery -/

lemma sendMessage_sessionId_of_truthy (messageText : Option String) (now now2 : Nat)
    (outcome : FetchOutcome ChatResponseBody) (s : ChatState)
    (h : truthyOptStr s.sessionId = true) :
    (sendMessage messageText now now2 outcome s).1.sessionId = s.sessionId := by
  unfold sendMessage
  split
  · rfl
  · cases outcome with
    | throw => rfl
    | resp ok body =>
      cases body with
      | none => rfl
      | some data =>
        simp only [sendMessageResolve, sendMessageOptimistic]
        rw [if_neg]
        rintro ⟨-, h2⟩
        rw [h] at h2
        exact Bool.noConfusion h2

lemma sendMessage_sessionOk (messageText : Option String) (now now2 : Nat)
    (outcome : FetchOutcome ChatResponseBody) (s : ChatState)
    (h : s.sessionId = none ∨ truthyOptStr s.sessionId = true) :
    (sendMessage messageText now now2 outcome s).1.sessionId = none ∨
      truthyOptStr (sendMessage messageText now now2 outcome s).1.sessionId = true := by
  rcases h with h | h
  · unfold sendMessage
    split
    · exact Or.inl h
    · cases outcome with
      | throw => exact Or.inl h
      | resp ok body =>
        cases body with
        | none => exact Or.inl h
        | some data =>
          simp only [sendMessageResolve, sendMessageOptimistic]
          split
          · rename_i hc
            right
            exact hc.1
          · exact Or.inl h
  · right
    rw [sendMessage_sessionId_of_truthy messageText now now2 outcome s h]
    exact h

lemma runSends_sessionId_of_truthy (calls : List SendCall) (s : ChatState)
    (h : truthyOptStr s.sessionId = true) :
    (runSends calls s).sessionId = s.sessionId := by
  induction calls generalizing s with
  | nil => rfl
  | cons c cs ih =>
    rw [runSends]
    rw [ih _ (by rw [sendMessage_sessionId_of_truthy c.messageText c.now c.now2 c.outcome s h]; exact h)]
    exact sendMessage_sessionId_of_truthy c.messageText c.now c.now2 c.outcome s h

lemma runSends_sessionOk (calls : List SendCall) (s : ChatState)
    (h : s.sessionId = none ∨ truthyOptStr s.sessionId = true) :
    (runSends calls s).sessionId = none ∨
      truthyOptStr (runSends calls s).sessionId = true := by
  induction calls generalizing s with
  | nil => exact h
  | cons c cs ih =>
    rw [runSends]
    exact ih _ (sendMessage_sessionOk c.messageText c.now c.now2 c.outcome s h)

lemma runSends_append (calls₁ calls₂ : List SendCall) (s : ChatState) :
    runSends (calls₁ ++ calls₂) s = runSends calls₂ (runSends calls₁ s) := by
  induction calls₁ generalizing s with
  | nil => rfl
  | cons c cs ih =>
    rw [List.cons_append, runSends, runSends, ih]

/-- C2: over any sequence of `sendMessage` calls starting with no held
session id, once the session identifier has been set (necessarily from a
server response, via the `data.session_id && !sessionId` guard), no later
response — whatever session id it carries — changes it. -/
theorem sessionId_first_writer_wins (s : ChatState) (calls₁ calls₂ : List SendCall)
    (sid : String) (h0 : s.sessionId = none)
    (h1 : (runSends calls₁ s).sessionId = some sid) :
    (runSends (calls₁ ++ calls₂) s).sessionId = some sid := by
  have htr : truthyOptStr (runSends calls₁ s).sessionId = true := by
    rcases runSends_sessionOk calls₁ s (Or.inl h0) with h | h
    · rw [h] at h1
      cases h1
    · exact h
  rw [runSends_append, runSends_sessionId_of_truthy calls₂ _ htr, h1]

theorem sessionId_first_writer_wins_witness :
    initChatState.sessionId = none ∧
    (runSends
        [{ messageText := some "hello", now := 0, now2 := 1,
           outcome := FetchOutcome.resp true
             (some { message := some "hi there", sources := some [],
                     session_id := some "abc" }) }]
        initChatState).sessionId = some "abc" ∧
    (runSends
        ([{ messageText := some "hello", now := 0, now2 := 1,
            outcome := FetchOutcome.resp true
              (some { message := some "hi there", sources := some [],
                      session_id := some "abc" }) }] ++
         [{ messageText := some "more", now := 2, now2 := 3,
            outcome := FetchOutcome.resp true
              (some { message := some "yo", sources := none,
                      session_id := some "xyz" }) }])
        initChatState).sessionId = some "abc" :=
  ⟨rfl, by decide,
   sessionId_first_writer_wins initChatState
     [{ messageText := some "hello", now := 0, now2 := 1,
        outcome := FetchOutcome.resp true
          (some { message := some "hi there", sources := some [],
                  session_id := some "abc" }) }]
     [{ messageText := some "more", now := 2, now2 := 3,
        outcome := FetchOutcome.resp true
          (some { message := some "yo", sources := none,
                  session_id := some "xyz" }) }]
     "abc" rfl (by decide)⟩

/-- C10: the URL `session_id` effect adopts the parameter only when no
session id is currently held: a held (necessarily non-empty) id is never
overwritten, and from the unset state a URL id is adopted exactly when it
is truthy (non-empty). -/
theorem urlSessionId_first_writer_wins (urlParam : Option String) (s : ChatState)
    (sid t : String) (h : s.sessionId = some sid) (hne : sid ≠ "") :
    adoptUrlSessionId urlParam s = s ∧
    (adoptUrlSessionId (some t) { s with sessionId := none }).sessionId =
      (if t = "" then none else some t) := by
  constructor
  · unfold adoptUrlSessionId
    rw [if_neg]
    rintro ⟨-, h2⟩
    rw [h] at h2
    simp [truthyOptStr, truthyStr, hne] at h2
  · unfold adoptUrlSessionId
    by_cases ht : t = ""
    · subst ht
      rw [if_neg, if_pos rfl]
      rintro ⟨h1, -⟩
      simp [truthyOptStr, truthyStr] at h1
    · rw [if_pos ⟨by simp [truthyOptStr, truthyStr, ht], rfl⟩, if_neg ht]

theorem urlSessionId_first_writer_wins_witness :
    ({ initChatState with sessionId := some "abc" } : ChatState).sessionId = some "abc" ∧
    ("abc" : String) ≠ "" ∧
    (adoptUrlSessionId (some "xyz") { initChatState with sessionId := some "abc" } =
      { initChatState with sessionId := some "abc" } ∧
     (adoptUrlSessionId (some "url1")
        { ({ initChatState with sessionId := some "abc" } : ChatState) with
          sessionId := none }).sessionId =
       (if ("url1" : String) = "" then none else some "url1")) :=
  ⟨rfl, by decide,
   urlSessionId_first_writer_wins (some "xyz") { initChatState with sessionId := some "abc" }
     "abc" "url1" rfl (by decide)⟩

/-- C3: the three dashboard responses are applied independently — when all
three fetches settle with parsed bodies, each slice is updated exactly when
its response is 2xx, the others keep their previous values, and no error
flag is set; whereas if any of the three fetches rejects at the network
level, no slice is updated at all and the single error flag is set. The
`finally` block clears `loading` either way. -/
theorem fetchDashboardData_independent_slices (s : DashboardState)
    (okS okSe okI : Bool) (dS : DashboardStats) (dSe : SessionsBody) (dI : InsightsBody)
    (rS : FetchOutcome DashboardStats) (rSe : FetchOutcome SessionsBody)
    (rI : FetchOutcome InsightsBody)
    (hthrow : rS = FetchOutcome.throw ∨ rSe = FetchOutcome.throw ∨
      rI = FetchOutcome.throw) :
    ((fetchDashboardData (FetchOutcome.resp okS (some dS))
        (FetchOutcome.resp okSe (some dSe)) (FetchOutcome.resp okI (some dI)) s).stats =
      (if okS then dS else s.stats) ∧
     (fetchDashboardData (FetchOutcome.resp okS (some dS))
        (FetchOutcome.resp okSe (some dSe))
        (FetchOutcome.resp okI (some dI)) s).recentSessions =
      (if okSe then dSe.sessions.getD [] else s.recentSessions) ∧
     (fetchDashboardData (FetchOutcome.resp okS (some dS))
        (FetchOutcome.resp okSe (some dSe)) (FetchOutcome.resp okI (some dI)) s).insights =
      (if okI then dI.insights.getD [] else s.insights) ∧
     (fetchDashboardData (FetchOutcome.resp okS (some dS))
        (FetchOutcome.resp okSe (some dSe)) (FetchOutcome.resp okI (some dI)) s).error =
      none ∧
     (fetchDashboardData (FetchOutcome.resp okS (some dS))
        (FetchOutcome.resp okSe (some dSe)) (FetchOutcome.resp okI (some dI)) s).loading =
      false) ∧
    ((fetchDashboardData rS rSe rI s).stats = s.stats ∧
     (fetchDashboardData rS rSe rI s).recentSessions = s.recentSessions ∧
     (fetchDashboardData rS rSe rI s).insights = s.insights ∧
     (fetchDashboardData rS rSe rI s).error = some dashboardErrorMessage ∧
     (fetchDashboardData rS rSe rI s).loading = false) := by
  constructor
  · cases okS <;> cases okSe <;> cases okI <;>
      simp [fetchDashboardData, sliceStep, dashboardCatch]
  · rcases hthrow with h | h | h <;> subst h
    · simp [fetchDashboardData, dashboardCatch]
    · cases rS <;> simp [fetchDashboardData, sliceStep, dashboardCatch]
    · cases rS <;> cases rSe <;> simp [fetchDashboardData, sliceStep, dashboardCatch]

theorem fetchDashboardData_independent_slices_witness :
    ((FetchOutcome.throw : FetchOutcome DashboardStats) = FetchOutcome.throw ∨
      (FetchOutcome.throw : FetchOutcome SessionsBody) = FetchOutcome.throw ∨
      (FetchOutcome.throw : FetchOutcome InsightsBody) = FetchOutcome.throw) ∧
    (((fetchDashboardData (FetchOutcome.resp true (some ⟨1, 2, 3, 4⟩))
         (FetchOutcome.resp false (some ⟨none⟩))
         (FetchOutcome.resp true (some ⟨none⟩)) initDashboardState).stats =
       (if true then (⟨1, 2, 3, 4⟩ : DashboardStats) else initDashboardState.stats) ∧
      (fetchDashboardData (FetchOutcome.resp true (some ⟨1, 2, 3, 4⟩))
         (FetchOutcome.resp false (some ⟨none⟩))
         (FetchOutcome.resp true (some ⟨none⟩)) initDashboardState).recentSessions =
       (if false then (⟨none⟩ : SessionsBody).sessions.getD []
        else initDashboardState.recentSessions) ∧
      (fetchDashboardData (FetchOutcome.resp true (some ⟨1, 2, 3, 4⟩))
         (FetchOutcome.resp false (some ⟨none⟩))
         (FetchOutcome.resp true (some ⟨none⟩)) initDashboardState).insights =
       (if true then (⟨none⟩ : InsightsBody).insights.getD []
        else initDashboardState.insights) ∧
      (fetchDashboardData (FetchOutcome.resp true (some ⟨1, 2, 3, 4⟩))
         (FetchOutcome.resp false (some ⟨none⟩))
         (FetchOutcome.resp true (some ⟨none⟩)) initDashboardState).error = none ∧
      (fetchDashboardData (FetchOutcome.resp true (some ⟨1, 2, 3, 4⟩))
         (FetchOutcome.resp false (some ⟨none⟩))
         (FetchOutcome.resp true (some ⟨none⟩)) initDashboardState).loading = false) ∧
     ((fetchDashboardData FetchOutcome.throw FetchOutcome.throw FetchOutcome.throw
         initDashboardState).stats = initDashboardState.stats ∧
      (fetchDashboardData FetchOutcome.throw FetchOutcome.throw FetchOutcome.throw
         initDashboardState).recentSessions = initDashboardState.recentSessions ∧
      (fetchDashboardData FetchOutcome.throw FetchOutcome.throw FetchOutcome.throw
         initDashboardState).insights = initDashboardState.insights ∧
      (fetchDashboardData FetchOutcome.throw FetchOutcome.throw FetchOutcome.throw
         initDashboardState).error = some dashboardErrorMessage ∧
      (fetchDashboardData FetchOutcome.throw FetchOutcome.throw FetchOutcome.throw
         initDashboardState).loading = false)) :=
  ⟨Or.inl rfl,
   fetchDashboardData_independent_slices initDashboardState true false true
     ⟨1, 2, 3, 4⟩ ⟨none⟩ ⟨none⟩ FetchOutcome.throw FetchOutcome.throw FetchOutcome.throw
     (Or.inl rfl)⟩

/-- C6: once confirmed, `deleteSession` always issues the delete request;
on a 2xx response it removes exactly the sessions whose id matches from the
displayed list (the state shown here is the one in force before the
triggered refresh resolves) and triggers the `fetchDashboardData` refresh;
on a non-2xx response or a rejected fetch it leaves the list (and the other
slices) unchanged, triggers no refresh, and sets the error flag. -/
theorem deleteSession_confirmed_spec (sessionId : Int) (outcome : DeleteOutcome)
    (s : DashboardState) :
    (deleteSession true sessionId outcome s).requestIssued = true ∧
    (deleteSession true sessionId outcome s).state.recentSessions =
      (if outcome = DeleteOutcome.resp true
       then s.recentSessions.filter (fun session => session.id != sessionId)
       else s.recentSessions) ∧
    (deleteSession true sessionId outcome s).refreshTriggered =
      (if outcome = DeleteOutcome.resp true then true else false) ∧
    (deleteSession true sessionId outcome s).state.error =
      (if outcome = DeleteOutcome.resp true then s.error else some deleteErrorMessage) ∧
    (deleteSession true sessionId outcome s).state.stats = s.stats ∧
    (deleteSession true sessionId outcome s).state.insights = s.insights := by
  cases outcome with
  | throw => simp [deleteSession]
  | resp ok => cases ok <;> simp [deleteSession]

/-- C7 (amended): the frontend's request URLs split into two families — the
axios wrapper's endpoints are all relative to the single configurable
`API_BASE_URL` (environment variable with localhost fallback), while the
chat page's send fetch and the dashboard page's four fetches hardcode the
base `http://127.0.0.1:8000/api`, whatever the environment variable says. -/
theorem frontend_urls_two_bases (env : Option String) (sid q : String) (dashId : Int) :
    frontendRequestURLs env sid q dashId =
      (apiWrapperPaths sid q).map (fun p => API_BASE_URL env ++ p) ++
      (hardcodedPaths dashId).map (fun p => hardcodedBase ++ p) := by
  have hb : hardcodedBase ++ "/chat/dashboard/sessions/" =
      "http://127.0.0.1:8000/api/chat/dashboard/sessions/" := by decide
  have h5 : hardcodedBase ++ ("/chat/dashboard/sessions/" ++ toString dashId ++ "/delete/") =
      "http://127.0.0.1:8000/api/chat/dashboard/sessions/" ++ toString dashId ++ "/delete/" := by
    rw [← String.append_assoc, ← String.append_assoc, hb]
  simp [frontendRequestURLs, apiWrapperPaths, hardcodedPaths, h5, hb,
    show (hardcodedBase ++ "/chat/send/" : String) =
      "http://127.0.0.1:8000/api/chat/send/" from by decide,
    show (hardcodedBase ++ "/chat/dashboard/stats/" : String) =
      "http://127.0.0.1:8000/api/chat/dashboard/stats/" from by decide,
    show (hardcodedBase ++ "/chat/dashboard/insights/" : String) =
      "http://127.0.0.1:8000/api/chat/dashboard/insights/" from by decide]

/-- C7 (counterexample): the chat page's hardcoded send URL is among the
frontend's request URLs, yet with the environment variable unset it is not
relative to the configurable base (`http://localhost:8000/api`). -/
theorem hardcodedURL_not_under_configurable_base :
    chatSendFetchURL ∈ frontendRequestURLs none "abc" "q" 42 ∧
    usesBase (API_BASE_URL none) chatSendFetchURL = false :=
  ⟨by decide, by decide⟩
